import Mathlib

/-!
Verification of the dialogue core of `src/geohackathon/app.py`
(Well Analysis Assistant): intent classification, response generation
and report formatting, shallowly embedded in Lean.

Python strings are Lean `String`s, Python numbers are `ℚ`, Python
dictionaries (which preserve insertion order) are association lists.
-/

namespace GeoHackathon

/-- ASCII lower-casing of a character, as Python `str.lower` acts on the
ASCII keywords used by the classifier. -/
def lowerChar (c : Char) : Char :=
  if 65 ≤ c.toNat ∧ c.toNat ≤ 90 then Char.ofNat (c.toNat + 32) else c

/-- ASCII upper-casing of a character. -/
def upperChar (c : Char) : Char :=
  if 97 ≤ c.toNat ∧ c.toNat ≤ 122 then Char.ofNat (c.toNat - 32) else c

/-- Whether a character is an ASCII letter (a cased character). -/
def isAsciiAlpha (c : Char) : Bool :=
  (65 ≤ c.toNat ∧ c.toNat ≤ 90) ∨ (97 ≤ c.toNat ∧ c.toNat ≤ 122)

/-- Python `s.lower()` (restricted to ASCII, which covers every keyword
and label the program matches on). -/
def pyLower (s : String) : String := ⟨s.data.map lowerChar⟩

/-- Whether `needle` occurs as a contiguous sublist of `hay`:
the meaning of Python `needle in hay` on strings. -/
def infixOf (needle : List Char) : List Char → Bool
  | [] => needle.isEmpty
  | c :: cs => needle.isPrefixOf (c :: cs) || infixOf needle cs

/-- Python `needle in hay` for strings. -/
def containsSub (hay needle : String) : Bool := infixOf needle.data hay.data

/-- Python `any(word in lower_input for word in words)`. -/
def anyKeyword (lower_input : String) (words : List String) : Bool :=
  words.any (fun w => containsSub lower_input w)

/-- Python `key.replace('_', ' ')`. -/
def replaceUnderscore (s : String) : String :=
  ⟨s.data.map (fun c => if c = '_' then ' ' else c)⟩

/-- Character stream of Python `str.title()`: upper-case a cased character
that follows a non-cased one, lower-case a cased character that follows a
cased one (ASCII restriction). -/
def titleChars : Bool → List Char → List Char
  | _, [] => []
  | prevCased, c :: cs =>
    let c2 := if isAsciiAlpha c then (if prevCased then lowerChar c else upperChar c) else c
    c2 :: titleChars (isAsciiAlpha c) cs

/-- Python `s.title()` (ASCII restriction). -/
def titleStr (s : String) : String := ⟨titleChars false s.data⟩

/-- A scalar value stored in `extracted_parameters`: a string, a number,
or an absent/None entry. -/
inductive PValue
  | str (s : String)
  | num (q : ℚ)
  | absent
deriving DecidableEq, Repr

/-- Python truthiness of a parameter value (`if value:`): empty strings,
zero and None are falsy. -/
def PValue.truthy : PValue → Bool
  | .str s => !s.isEmpty
  | .num q => q ≠ 0
  | .absent => false

/-- Rendering of a parameter value inside an f-string. The numeric case
abstracts the Python number repr; no claim depends on its exact digits. -/
def PValue.display : PValue → String
  | .str s => s
  | .num q => toString q
  | .absent => "None"

/-- Record `operating_point` of the nodal results (units fixed by the
key names used in `app.py`). -/
structure OperatingPoint where
  flow_rate_m3_h : ℚ
  wellhead_pressure_bar : ℚ
  bottomhole_pressure_bar : ℚ
  reservoir_pressure_bar : ℚ
deriving DecidableEq, Repr

/-- Record `pressure_analysis`. -/
structure PressureAnalysis where
  hydrostatic_pressure_drop_bar : ℚ
  friction_pressure_drop_bar : ℚ
  total_pressure_drop_bar : ℚ
deriving DecidableEq, Repr

/-- Record `flow_characteristics`. -/
structure FlowCharacteristics where
  reynolds_number : ℚ
  flow_regime : String
  friction_factor : ℚ
  velocity_m_s : ℚ
deriving DecidableEq, Repr

/-- Record `productivity`. -/
structure Productivity where
  productivity_index_m3h_bar : ℚ
  max_flow_rate_m3_h : ℚ
  current_utilization_pct : ℚ
deriving DecidableEq, Repr

/-- The four sub-records required when nodal analysis succeeded. -/
structure NodalResults where
  operating_point : OperatingPoint
  pressure_analysis : PressureAnalysis
  flow_characteristics : FlowCharacteristics
  productivity : Productivity
deriving DecidableEq, Repr

/-- Field `nodal_analysis_results`: tagged variant
`{status: success, results}` / `{status: failure, message}`. -/
inductive NodalStatus
  | success (results : NodalResults)
  | failure (message : String)
deriving DecidableEq, Repr

/-- A well-formed Report as consumed by the dialogue core. The parameter
dictionary is an insertion-ordered association list. -/
structure Report where
  extracted_parameters : List (String × PValue)
  nodal_analysis_results : NodalStatus
  summary : String
deriving DecidableEq, Repr

/-- Rendering of a number inside an f-string (`{x}`). Abstracts the Python
numeric repr; no claim depends on its exact digits. -/
def showNum (q : ℚ) : String := toString q

/-- Executable floor of a rational: the numerator floor-divided by the
denominator (the denominator is positive). -/
def ratFloor (q : ℚ) : ℤ := q.num.fdiv q.den

/-- Rounding to the nearest integer, halves up: `⌊q + 1/2⌋`. -/
def ratRound (q : ℚ) : ℤ := ratFloor (q + 1/2)

/-- Python `f"{x:.1f}"`: the value rounded to one decimal place, printed
with exactly one digit after the point. (Tie behaviour at exact
half-tenths abstracts from binary-float rounding.) -/
def fmt1f (q : ℚ) : String :=
  let n : ℤ := ratRound (q * 10)
  (if n < 0 then "-" else "") ++ toString (n.natAbs / 10) ++ "." ++ toString (n.natAbs % 10)

/-- Body of `format_nodal_details` (`app.py` lines 58-89). -/
def format_nodal_details (results : NodalResults) : String :=
  let op := results.operating_point
  let pa := results.pressure_analysis
  let fc := results.flow_characteristics
  let prod := results.productivity
  "### ⚙️ Detailed Nodal Analysis\n\n"
  ++ "**Operating Point:**\n"
  ++ "- Flow Rate: " ++ showNum op.flow_rate_m3_h ++ " m³/h\n"
  ++ "- Wellhead Pressure: " ++ showNum op.wellhead_pressure_bar ++ " bar\n"
  ++ "- Bottomhole Pressure: " ++ showNum op.bottomhole_pressure_bar ++ " bar\n"
  ++ "- Reservoir Pressure: " ++ showNum op.reservoir_pressure_bar ++ " bar\n\n"
  ++ "**Pressure Analysis:**\n"
  ++ "- Hydrostatic Drop: " ++ showNum pa.hydrostatic_pressure_drop_bar ++ " bar\n"
  ++ "- Friction Drop: " ++ showNum pa.friction_pressure_drop_bar ++ " bar\n"
  ++ "- Total Drop: " ++ showNum pa.total_pressure_drop_bar ++ " bar\n\n"
  ++ "**Flow Characteristics:**\n"
  ++ "- Reynolds Number: " ++ showNum fc.reynolds_number ++ "\n"
  ++ "- Flow Regime: " ++ fc.flow_regime ++ "\n"
  ++ "- Friction Factor: " ++ showNum fc.friction_factor ++ "\n"
  ++ "- Velocity: " ++ showNum fc.velocity_m_s ++ " m/s\n\n"
  ++ "**Productivity:**\n"
  ++ "- Productivity Index: " ++ showNum prod.productivity_index_m3h_bar ++ " m³/h/bar\n"
  ++ "- Maximum Flow: " ++ showNum prod.max_flow_rate_m3_h ++ " m³/h\n"
  ++ "- Current Utilization: " ++ showNum prod.current_utilization_pct ++ "%\n"

/-- Body of `generate_optimization_advice` (`app.py` lines 92-123). -/
def generate_optimization_advice (results : NodalResults) : String :=
  let prod := results.productivity
  let utilization := prod.current_utilization_pct
  "### 💡 Production Optimization Recommendations\n\n"
  ++ "**Current Status:** Operating at " ++ showNum utilization ++ "% of maximum potential\n\n"
  ++ (if utilization < 50 then
        "🚀 **High optimization potential!**\n\n"
        ++ "**Recommendations:**\n"
        ++ "1. **Increase ESP frequency** - Could boost production significantly\n"
        ++ "2. **Reduce wellhead backpressure** - Check surface facilities\n"
        ++ "3. **Review choke settings** - May be restricting flow\n"
        ++ "4. **Potential gain:** Up to "
        ++ fmt1f (prod.max_flow_rate_m3_h - results.operating_point.flow_rate_m3_h)
        ++ " m³/h\n"
      else if utilization < 75 then
        "📈 **Moderate optimization potential**\n\n"
        ++ "**Recommendations:**\n"
        ++ "1. **Fine-tune ESP settings** - Gradual frequency increase\n"
        ++ "2. **Monitor reservoir pressure** - Ensure adequate drive\n"
        ++ "3. **Optimize artificial lift** - Balance power vs production\n"
      else
        "✅ **Well is operating efficiently!**\n\n"
        ++ "Current utilization is good. Focus on:\n"
        ++ "1. **Maintain current settings** - Don\x27t over-produce\n"
        ++ "2. **Monitor for decline** - Track performance over time\n"
        ++ "3. **Prevent equipment damage** - Operating near capacity\n")

/-- Pressure-drop percentages of `identify_limitations` (`app.py` lines
133-139): zero when `total_pressure_drop_bar` is zero, otherwise the
share of the hydrostatic and the friction drop, each times 100. -/
def limitation_pcts (pa : PressureAnalysis) : ℚ × ℚ :=
  let total_drop := pa.total_pressure_drop_bar
  if total_drop = 0 then (0.0, 0.0)
  else ((pa.hydrostatic_pressure_drop_bar / total_drop) * 100,
        (pa.friction_pressure_drop_bar / total_drop) * 100)

/-- Body of `identify_limitations` (`app.py` lines 126-159). -/
def identify_limitations (results : NodalResults) : String :=
  let pa := results.pressure_analysis
  let fc := results.flow_characteristics
  let hydrostatic_pct := (limitation_pcts pa).1
  let friction_pct := (limitation_pcts pa).2
  "### 🔍 Production Limitation Analysis\n\n"
  ++ "**Pressure Drop Breakdown:**\n"
  ++ "- Hydrostatic: " ++ fmt1f hydrostatic_pct ++ "% ("
  ++ showNum pa.hydrostatic_pressure_drop_bar ++ " bar)\n"
  ++ "- Friction: " ++ fmt1f friction_pct ++ "% ("
  ++ showNum pa.friction_pressure_drop_bar ++ " bar)\n\n"
  ++ "**Main Limiting Factors:**\n\n"
  ++ (if friction_pct > 10 then
        "⚠️ **High friction losses** - Consider:\n"
        ++ "- Larger tubing diameter\n"
        ++ "- Scale/wax treatment\n"
        ++ "- Flow regime optimization\n\n"
      else "")
  ++ "🔹 **Hydrostatic head** - Natural limitation due to well depth\n"
  ++ "🔹 **Wellhead pressure** - Surface equipment backpressure\n"
  ++ "🔹 **Flow regime** - Currently " ++ pyLower fc.flow_regime ++ "\n\n"
  ++ "*The friction losses indicate tubing efficiency. Lower is better!*"

/-- One bullet of the ShowParameters loop (`app.py` line 211). -/
def paramBullet (kv : String × PValue) : String :=
  "- **" ++ titleStr (replaceUnderscore kv.1) ++ ":** " ++ kv.2.display ++ "\n"

/-- The ShowParameters loop (`app.py` lines 209-211): append one bullet
per truthy entry, in insertion order. -/
def paramLines : List (String × PValue) → String
  | [] => ""
  | kv :: rest => (if kv.2.truthy then paramBullet kv else "") ++ paramLines rest

/-- The fixed help text returned when no report is loaded and the
utterance mentions upload/how/start (`app.py` lines 169-177). -/
def helpGettingStartedText : String :=
  "To get started:\n            \n"
  ++ "1. Click the **Browse files** button in the sidebar  \n"
  ++ "2. Select a PDF well completion report  \n"
  ++ "3. Click **🚀 Analyze Document**  \n"
  ++ "4. Wait for the analysis to complete  \n"
  ++ "5. Ask me questions about the results!\n\n"
  ++ "I support standard well completion reports with tables and technical data."

/-- The fixed extraction explanation (`app.py` lines 179-188). -/
def explainExtractionText : String :=
  "I can extract many parameters from well documents:\n\n"
  ++ "**Basic Info:** Well name, operation type, dates, duration  \n"
  ++ "**Depths:** Packer, PBR, pump intake, total depth  \n"
  ++ "**Equipment:** Tubing size, ESP details, completion config  \n"
  ++ "**Reservoir:** Temperature, fluid type, pressure  \n"
  ++ "**Production:** Flow rates, pressures, fluid properties  \n"
  ++ "**Safety:** HSE incidents, operational notes  \n\n"
  ++ "Upload a document to see what I can extract! 📄"

/-- The fixed nodal-analysis explanation (`app.py` lines 190-198). -/
def explainNodalAnalysisText : String :=
  "**Nodal Analysis** determines well production capacity by analyzing pressure relationships.\n\n"
  ++ "I calculate:  \n"
  ++ "- **Pressure Distribution:** From reservoir to wellhead  \n"
  ++ "- **Flow Characteristics:** Reynolds number, flow regime, friction  \n"
  ++ "- **Productivity:** Current vs maximum potential  \n"
  ++ "- **Bottlenecks:** What\x27s limiting production  \n\n"
  ++ "Upload a document and I\x27ll perform the analysis automatically! ⚙️"

/-- The NeedsUpload response (`app.py` lines 200-203): a template that
quotes the utterance verbatim. -/
def needsUploadText (user_input : String) : String :=
  "I understand you\x27re asking: *\"" ++ user_input ++ "\"*\n\n"
  ++ "Please upload a PDF document first so I can help you analyze it! Use the sidebar to upload. 📤"

/-- The FallbackMenu response (`app.py` lines 238-247): a template that
quotes the utterance verbatim. -/
def fallbackMenuText (user_input : String) : String :=
  "I understand you\x27re asking: *\"" ++ user_input ++ "\"*\n\n"
  ++ "I can help you with:\n"
  ++ "- Show extracted parameters\n"
  ++ "- Explain nodal analysis results\n"
  ++ "- Provide optimization suggestions\n"
  ++ "- Identify production limitations\n"
  ++ "- Export the full report\n\n"
  ++ "Try asking: **\"What are the nodal results?\"** or **\"How can we optimize production?\"** 💡"

/-- Body of `generate_response` (`app.py` lines 162-247). The `report`
argument is `Option.none` when no document has been analyzed (Python
`None`; Python `if not report:` takes that branch). -/
def generate_response (user_input : String) (report : Option Report) : String :=
  let lower_input := pyLower user_input
  match report with
  | Option.none =>
    if anyKeyword lower_input ["upload", "how", "start"] then
      helpGettingStartedText
    else if anyKeyword lower_input ["extract", "parameter"] then
      explainExtractionText
    else if anyKeyword lower_input ["nodal", "analysis", "calculate"] then
      explainNodalAnalysisText
    else
      needsUploadText user_input
  | some report =>
    if anyKeyword lower_input ["parameter", "extract", "data"] then
      "### 📋 Extracted Parameters\n\n" ++ paramLines report.extracted_parameters
    else if anyKeyword lower_input ["nodal", "pressure", "flow"] then
      match report.nodal_analysis_results with
      | .success results => format_nodal_details results
      | .failure message => "⚠️ Nodal analysis was incomplete: " ++ message
    else if anyKeyword lower_input ["summary", "overview"] then
      "### 📝 Document Summary\n\n" ++ report.summary
    else if anyKeyword lower_input ["increase", "optimize", "improve"] then
      match report.nodal_analysis_results with
      | .success results => generate_optimization_advice results
      | .failure _ => "I need successful nodal analysis results to provide optimization advice."
    else if anyKeyword lower_input ["limit", "bottleneck", "problem"] then
      match report.nodal_analysis_results with
      | .success results => identify_limitations results
      | .failure _ => "I need successful nodal analysis results to identify limitations."
    else
      fallbackMenuText user_input

/-- The response categories of the dialogue core (§4.1 of the spec),
one per branch of `generate_response`. -/
inductive Intent
  | HelpGettingStarted
  | ExplainExtraction
  | ExplainNodalAnalysis
  | NeedsUpload
  | ShowParameters
  | ShowNodalDetails
  | ShowSummary
  | OptimizationAdvice
  | LimitationAnalysis
  | FallbackMenu
deriving DecidableEq, Repr

/-- The intent classifier: the branch structure of `generate_response`
(`app.py` lines 162-247), with each branch named by its category. -/
def classify (utterance : String) (reportPresent : Bool) : Intent :=
  let lower_input := pyLower utterance
  if reportPresent then
    if anyKeyword lower_input ["parameter", "extract", "data"] then .ShowParameters
    else if anyKeyword lower_input ["nodal", "pressure", "flow"] then .ShowNodalDetails
    else if anyKeyword lower_input ["summary", "overview"] then .ShowSummary
    else if anyKeyword lower_input ["increase", "optimize", "improve"] then .OptimizationAdvice
    else if anyKeyword lower_input ["limit", "bottleneck", "problem"] then .LimitationAnalysis
    else .FallbackMenu
  else
    if anyKeyword lower_input ["upload", "how", "start"] then .HelpGettingStarted
    else if anyKeyword lower_input ["extract", "parameter"] then .ExplainExtraction
    else if anyKeyword lower_input ["nodal", "analysis", "calculate"] then .ExplainNodalAnalysis
    else .NeedsUpload

/-- Report-loaded keyword sets of the spec, in its stated priority order
(§4.1, report-loaded branch). -/
def loadedPriority : List (List String × Intent) :=
  [(["parameter", "extract", "data"], .ShowParameters),
   (["nodal", "pressure", "flow"], .ShowNodalDetails),
   (["summary", "overview"], .ShowSummary),
   (["increase", "optimize", "improve"], .OptimizationAdvice),
   (["limit", "bottleneck", "problem"], .LimitationAnalysis)]

/-- Sequential first-match evaluation of an ordered list of
(keyword set, intent) pairs, as the spec describes the tie-break. -/
def firstMatch (lower : String) : List (List String × Intent) → Intent → Intent
  | [], dflt => dflt
  | (ws, i) :: rest, dflt =>
    if anyKeyword lower ws then i else firstMatch lower rest dflt

/-- A JSON value: the textual interchange format that `download_report`
(`app.py` lines 312-324) emits via `json.dumps`, modelled at the level of
the value tree (objects keep field order, as Python dictionaries do). -/
inductive Json
  | str (s : String)
  | num (q : ℚ)
  | null
  | obj (fields : List (String × Json))

/-- Serialization of a parameter value. -/
def pvalueToJson : PValue → Json
  | .str s => .str s
  | .num q => .num q
  | .absent => .null

/-- Serialization of `operating_point`, key names as read in `app.py`. -/
def opToJson (op : OperatingPoint) : Json :=
  .obj [("flow_rate_m3_h", .num op.flow_rate_m3_h),
        ("wellhead_pressure_bar", .num op.wellhead_pressure_bar),
        ("bottomhole_pressure_bar", .num op.bottomhole_pressure_bar),
        ("reservoir_pressure_bar", .num op.reservoir_pressure_bar)]

/-- Serialization of `pressure_analysis`. -/
def paToJson (pa : PressureAnalysis) : Json :=
  .obj [("hydrostatic_pressure_drop_bar", .num pa.hydrostatic_pressure_drop_bar),
        ("friction_pressure_drop_bar", .num pa.friction_pressure_drop_bar),
        ("total_pressure_drop_bar", .num pa.total_pressure_drop_bar)]

/-- Serialization of `flow_characteristics`. -/
def fcToJson (fc : FlowCharacteristics) : Json :=
  .obj [("reynolds_number", .num fc.reynolds_number),
        ("flow_regime", .str fc.flow_regime),
        ("friction_factor", .num fc.friction_factor),
        ("velocity_m_s", .num fc.velocity_m_s)]

/-- Serialization of `productivity`. -/
def prodToJson (prod : Productivity) : Json :=
  .obj [("productivity_index_m3h_bar", .num prod.productivity_index_m3h_bar),
        ("max_flow_rate_m3_h", .num prod.max_flow_rate_m3_h),
        ("current_utilization_pct", .num prod.current_utilization_pct)]

/-- Serialization of the four nodal sub-records. -/
def resultsToJson (r : NodalResults) : Json :=
  .obj [("operating_point", opToJson r.operating_point),
        ("pressure_analysis", paToJson r.pressure_analysis),
        ("flow_characteristics", fcToJson r.flow_characteristics),
        ("productivity", prodToJson r.productivity)]

/-- Serialization of the tagged nodal variant. -/
def nodalToJson : NodalStatus → Json
  | .success r => .obj [("status", .str "success"), ("results", resultsToJson r)]
  | .failure m => .obj [("status", .str "failure"), ("message", .str m)]

/-- Serialization of the parameter dictionary, preserving order. -/
def paramsToJson (params : List (String × PValue)) : List (String × Json) :=
  params.map (fun kv => (kv.1, pvalueToJson kv.2))

/-- Serialization of a Report: field names and nesting exactly as the
report dictionary that `json.dumps` receives in `download_report`. -/
def reportToJson (r : Report) : Json :=
  .obj [("extracted_parameters", .obj (paramsToJson r.extracted_parameters)),
        ("nodal_analysis_results", nodalToJson r.nodal_analysis_results),
        ("summary", .str r.summary)]

/-- Modelled from the spec: parsing a parameter value back from JSON.
The repository contains only the serializing side (`json.dumps` in
`download_report`); the parser required by the round-trip property of §6
is reconstructed from the field shapes given by the spec. -/
def pvalueFromJson : Json → Option PValue
  | .str s => some (.str s)
  | .num q => some (.num q)
  | .null => some .absent
  | .obj _ => Option.none

/-- Modelled from the spec: parsing the parameter dictionary. -/
def paramsFromJson : List (String × Json) → Option (List (String × PValue))
  | [] => some []
  | (k, j) :: rest =>
    match pvalueFromJson j, paramsFromJson rest with
    | some v, some vs => some ((k, v) :: vs)
    | _, _ => Option.none

/-- Modelled from the spec: parsing the four nodal sub-records. -/
def resultsFromJson : Json → Option NodalResults
  | .obj [("operating_point", .obj [("flow_rate_m3_h", .num a),
            ("wellhead_pressure_bar", .num b),
            ("bottomhole_pressure_bar", .num c),
            ("reservoir_pressure_bar", .num d)]),
          ("pressure_analysis", .obj [("hydrostatic_pressure_drop_bar", .num e),
            ("friction_pressure_drop_bar", .num f),
            ("total_pressure_drop_bar", .num g)]),
          ("flow_characteristics", .obj [("reynolds_number", .num h),
            ("flow_regime", .str regime),
            ("friction_factor", .num i),
            ("velocity_m_s", .num j)]),
          ("productivity", .obj [("productivity_index_m3h_bar", .num k),
            ("max_flow_rate_m3_h", .num l),
            ("current_utilization_pct", .num m)])] =>
    some ⟨⟨a, b, c, d⟩, ⟨e, f, g⟩, ⟨h, regime, i, j⟩, ⟨k, l, m⟩⟩
  | _ => Option.none

/-- Modelled from the spec: parsing the tagged nodal variant. -/
def nodalFromJson : Json → Option NodalStatus
  | .obj [("status", .str "success"), ("results", rj)] =>
    (resultsFromJson rj).map NodalStatus.success
  | .obj [("status", .str "failure"), ("message", .str m)] =>
    some (.failure m)
  | _ => Option.none

/-- Modelled from the spec: parsing a Report from the interchange
format. -/
def reportFromJson : Json → Option Report
  | .obj [("extracted_parameters", .obj ps),
          ("nodal_analysis_results", nj),
          ("summary", .str s)] =>
    match paramsFromJson ps, nodalFromJson nj with
    | some params, some nodal => some ⟨params, nodal, s⟩
    | _, _ => Option.none
  | _ => Option.none

/-! ### Helper lemmas -/

theorem infixOf_iff (n : List Char) : ∀ h : List Char, infixOf n h = true ↔ n <:+: h := by
  intro h
  induction h with
  | nil => simp [infixOf, List.isEmpty_iff, List.infix_nil]
  | cons c cs ih => simp [infixOf, List.isPrefixOf_iff_prefix, ih, List.infix_cons_iff]

theorem containsSub_iff (h n : String) : containsSub h n = true ↔ n.data <:+: h.data :=
  infixOf_iff n.data h.data

theorem containsSub_append_of_left (a b n : String) (h : containsSub a n = true) :
    containsSub (a ++ b) n = true := by
  rw [containsSub_iff] at h ⊢
  rw [String.data_append]
  obtain ⟨s, t, hst⟩ := h
  exact ⟨s, t ++ b.data, by rw [← hst]; simp⟩

theorem containsSub_append_of_right (a b n : String) (h : containsSub b n = true) :
    containsSub (a ++ b) n = true := by
  rw [containsSub_iff] at h ⊢
  rw [String.data_append]
  obtain ⟨s, t, hst⟩ := h
  exact ⟨a.data ++ s, t, by rw [← hst]; simp⟩

theorem containsSub_self (n : String) : containsSub n n = true :=
  (containsSub_iff n n).2 (List.infix_refl n.data)

theorem containsSub_of_parts (a n b h : String) (he : a ++ n ++ b = h) :
    containsSub h n = true := by
  rw [containsSub_iff, ← he]
  exact ⟨a.data, b.data, by simp [String.data_append]⟩

/-! ### Claim theorems -/

/-- C2: with `total_drop = 0` both percentages of the limitation
analysis are exactly `0.0` (no division is performed); with a nonzero
`total_drop` they are the hydrostatic and the friction share of the
total drop, times 100. -/
theorem limitation_pcts_guard (pa : PressureAnalysis) :
    (pa.total_pressure_drop_bar = 0 → limitation_pcts pa = (0, 0)) ∧
    (pa.total_pressure_drop_bar ≠ 0 →
      limitation_pcts pa =
        ((pa.hydrostatic_pressure_drop_bar / pa.total_pressure_drop_bar) * 100,
         (pa.friction_pressure_drop_bar / pa.total_pressure_drop_bar) * 100)) := by
  constructor
  · intro h; simp [limitation_pcts, h]; norm_num
  · intro h; simp [limitation_pcts, h]

/-- Witness for `limitation_pcts_guard`: a zero total drop yields the
pair `(0, 0)`, a total drop of 40 with drops 30 and 10 yields 75% and
25%. -/
theorem limitation_pcts_guard_witness :
    limitation_pcts ⟨5, 5, 0⟩ = (0, 0) ∧ limitation_pcts ⟨30, 10, 40⟩ = (75, 25) := by
  refine ⟨(limitation_pcts_guard ⟨5, 5, 0⟩).1 rfl, ?_⟩
  have h := (limitation_pcts_guard ⟨30, 10, 40⟩).2 (by norm_num)
  rw [h]; norm_num

/-- C4: with no report loaded, any utterance whose lower-casing contains
one of the substrings "upload", "how" or "start" anywhere is classified
`HelpGettingStarted`, and `generate_response` returns the fixed
getting-started help text. -/
theorem noreport_upload_help (u : String)
    (h : anyKeyword (pyLower u) ["upload", "how", "start"] = true) :
    classify u false = Intent.HelpGettingStarted ∧
    generate_response u Option.none = helpGettingStartedText := by
  constructor
  · simp [classify, h]
  · simp [generate_response, h]

/-- Witness for `noreport_upload_help`: "Showcase" matches because the
keyword "how" occurs inside the word (case-insensitive, substring-based,
not tokenized). -/
theorem noreport_upload_help_witness :
    anyKeyword (pyLower "Showcase") ["upload", "how", "start"] = true ∧
    classify "Showcase" false = Intent.HelpGettingStarted ∧
    generate_response "Showcase" Option.none = helpGettingStartedText :=
  ⟨by decide, noreport_upload_help "Showcase" (by decide)⟩

/-- C10: `generate_response` is a pure function of its two arguments:
two invocations with equal utterance and equal report produce the
identical output string. -/
theorem generate_response_deterministic (u₁ u₂ : String) (r₁ r₂ : Option Report)
    (hu : u₁ = u₂) (hr : r₁ = r₂) :
    generate_response u₁ r₁ = generate_response u₂ r₂ := by
  subst hu; subst hr; rfl

/-- Witness for `generate_response_deterministic` at a concrete call. -/
theorem generate_response_deterministic_witness :
    generate_response "hello" Option.none = generate_response "hello" Option.none :=
  generate_response_deterministic "hello" "hello" Option.none Option.none rfl rfl

/-- C1 (amended): with a report loaded, classification is sequential
first-match over the keyword sets in the fixed priority order
parameters/nodal/summary/optimization/limitations, so the
earliest-listed matching category wins; in particular an utterance
containing both "nodal" and "summary" but no keyword of the parameters
set ("parameter", "extract", "data") classifies as `ShowNodalDetails`,
not `ShowSummary`. -/
theorem classify_priority_amended :
    (∀ u : String, classify u true = firstMatch (pyLower u) loadedPriority Intent.FallbackMenu) ∧
    (∀ u : String,
      anyKeyword (pyLower u) ["parameter", "extract", "data"] = false →
      containsSub (pyLower u) "nodal" = true →
      containsSub (pyLower u) "summary" = true →
      classify u true = Intent.ShowNodalDetails) := by
  constructor
  · intro u; rfl
  · intro u hp hn hs
    have h2 : anyKeyword (pyLower u) ["nodal", "pressure", "flow"] = true := by
      simp [anyKeyword, hn]
    simp [classify, hp, h2]

/-- Witness for `classify_priority_amended` at "nodal summary". -/
theorem classify_priority_amended_witness :
    classify "nodal summary" true = Intent.ShowNodalDetails :=
  classify_priority_amended.2 "nodal summary" (by decide) (by decide) (by decide)

/-- Counterexample to C1 as stated: "nodal summary data" contains both
"nodal" and "summary", yet it classifies as `ShowParameters`, because it
also contains the earlier-priority keyword "data". -/
theorem nodal_summary_counterexample :
    containsSub (pyLower "nodal summary data") "nodal" = true ∧
    containsSub (pyLower "nodal summary data") "summary" = true ∧
    classify "nodal summary data" true = Intent.ShowParameters ∧
    Intent.ShowParameters ≠ Intent.ShowNodalDetails := by decide

/-- C5: when the nodal analysis failed, the nodal-details query returns
a templated warning containing the `message` field of the report verbatim, while
the optimization and limitation queries return their fixed
"need successful analysis" fallback strings; all three branches return a
string (the embedded function is total, no exception path exists). -/
theorem failure_paths_safe (u : String) (r : Report) (m : String)
    (hm : r.nodal_analysis_results = NodalStatus.failure m) :
    (anyKeyword (pyLower u) ["parameter", "extract", "data"] = false →
     anyKeyword (pyLower u) ["nodal", "pressure", "flow"] = true →
     generate_response u (some r) = "⚠️ Nodal analysis was incomplete: " ++ m ∧
     containsSub (generate_response u (some r)) m = true) ∧
    (anyKeyword (pyLower u) ["parameter", "extract", "data"] = false →
     anyKeyword (pyLower u) ["nodal", "pressure", "flow"] = false →
     anyKeyword (pyLower u) ["summary", "overview"] = false →
     anyKeyword (pyLower u) ["increase", "optimize", "improve"] = true →
     generate_response u (some r) =
       "I need successful nodal analysis results to provide optimization advice.") ∧
    (anyKeyword (pyLower u) ["parameter", "extract", "data"] = false →
     anyKeyword (pyLower u) ["nodal", "pressure", "flow"] = false →
     anyKeyword (pyLower u) ["summary", "overview"] = false →
     anyKeyword (pyLower u) ["increase", "optimize", "improve"] = false →
     anyKeyword (pyLower u) ["limit", "bottleneck", "problem"] = true →
     generate_response u (some r) =
       "I need successful nodal analysis results to identify limitations.") := by
  refine ⟨?_, ?_, ?_⟩
  · intro h1 h2
    have he : generate_response u (some r) = "⚠️ Nodal analysis was incomplete: " ++ m := by
      simp [generate_response, h1, h2, hm]
    exact ⟨he, he ▸ containsSub_append_of_right _ _ _ (containsSub_self m)⟩
  · intro h1 h2 h3 h4
    simp [generate_response, h1, h2, h3, h4, hm]
  · intro h1 h2 h3 h4 h5
    simp [generate_response, h1, h2, h3, h4, h5, hm]

/-- Witness for `failure_paths_safe`: a report whose nodal analysis
failed with message "sensor glitch", queried with "nodal", "optimize"
and "limit". -/
theorem failure_paths_safe_witness :
    (generate_response "nodal" (some ⟨[], NodalStatus.failure "sensor glitch", ""⟩) =
       "⚠️ Nodal analysis was incomplete: " ++ "sensor glitch" ∧
     containsSub (generate_response "nodal" (some ⟨[], NodalStatus.failure "sensor glitch", ""⟩))
       "sensor glitch" = true) ∧
    generate_response "optimize" (some ⟨[], NodalStatus.failure "sensor glitch", ""⟩) =
      "I need successful nodal analysis results to provide optimization advice." ∧
    generate_response "limit" (some ⟨[], NodalStatus.failure "sensor glitch", ""⟩) =
      "I need successful nodal analysis results to identify limitations." :=
  ⟨(failure_paths_safe "nodal" ⟨[], NodalStatus.failure "sensor glitch", ""⟩ "sensor glitch"
      rfl).1 (by decide) (by decide),
   (failure_paths_safe "optimize" ⟨[], NodalStatus.failure "sensor glitch", ""⟩ "sensor glitch"
      rfl).2.1 (by decide) (by decide) (by decide) (by decide),
   (failure_paths_safe "limit" ⟨[], NodalStatus.failure "sensor glitch", ""⟩ "sensor glitch"
      rfl).2.2 (by decide) (by decide) (by decide) (by decide) (by decide)⟩

/-- C6: the parameter display iterates the dictionary in insertion order
and emits exactly one bullet per truthy entry, silently skipping falsy
entries; in particular `{"well_name": "A-12", "duration": ""}` produces
the Well Name line and no Duration line. -/
theorem showParameters_truthy_filter :
    (∀ params : List (String × PValue),
      paramLines params =
        ((params.filter (fun kv => kv.2.truthy)).map paramBullet).foldr (· ++ ·) "") ∧
    generate_response "parameters"
        (some ⟨[("well_name", PValue.str "A-12"), ("duration", PValue.str "")],
               NodalStatus.failure "x", ""⟩) =
      "### 📋 Extracted Parameters\n\n- **Well Name:** A-12\n" := by
  constructor
  · intro params
    induction params with
    | nil => rfl
    | cons kv rest ih =>
      cases hkv : kv.2.truthy with
      | false => simp [paramLines, hkv, ih]
      | true => simp [paramLines, hkv, ih]
  · decide

/-- C8: the dialogue core is embedded as a total function, and an
utterance matching no keyword set falls through to the NeedsUpload
response (no report) or the FallbackMenu response (report loaded). -/
theorem generate_response_total_fallthrough (u : String) :
    (anyKeyword (pyLower u) ["upload", "how", "start"] = false →
     anyKeyword (pyLower u) ["extract", "parameter"] = false →
     anyKeyword (pyLower u) ["nodal", "analysis", "calculate"] = false →
     generate_response u Option.none = needsUploadText u) ∧
    (∀ r : Report,
      anyKeyword (pyLower u) ["parameter", "extract", "data"] = false →
      anyKeyword (pyLower u) ["nodal", "pressure", "flow"] = false →
      anyKeyword (pyLower u) ["summary", "overview"] = false →
      anyKeyword (pyLower u) ["increase", "optimize", "improve"] = false →
      anyKeyword (pyLower u) ["limit", "bottleneck", "problem"] = false →
      generate_response u (some r) = fallbackMenuText u) := by
  constructor
  · intro h1 h2 h3
    simp [generate_response, h1, h2, h3]
  · intro r h1 h2 h3 h4 h5
    simp [generate_response, h1, h2, h3, h4, h5]

/-- Witness for `generate_response_total_fallthrough` at the keywordless
utterance "zzz". -/
theorem generate_response_total_fallthrough_witness :
    generate_response "zzz" Option.none = needsUploadText "zzz" ∧
    generate_response "zzz" (some ⟨[], NodalStatus.failure "x", ""⟩) = fallbackMenuText "zzz" :=
  ⟨(generate_response_total_fallthrough "zzz").1 (by decide) (by decide) (by decide),
   (generate_response_total_fallthrough "zzz").2 ⟨[], NodalStatus.failure "x", ""⟩
     (by decide) (by decide) (by decide) (by decide) (by decide)⟩

/-- C7 (amended): the NeedsUpload and FallbackMenu responses are fixed
templates that quote the utterance verbatim: around the embedded
utterance the text is constant, so two utterances classifying to the
same of these intents yield messages differing only in the quoted
utterance (and identical utterances yield the identical message). -/
theorem fallback_templates_amended (u : String) :
    (anyKeyword (pyLower u) ["upload", "how", "start"] = false →
     anyKeyword (pyLower u) ["extract", "parameter"] = false →
     anyKeyword (pyLower u) ["nodal", "analysis", "calculate"] = false →
     generate_response u Option.none =
       "I understand you\x27re asking: *\"" ++ u ++
         "\"*\n\nPlease upload a PDF document first so I can help you analyze it! Use the sidebar to upload. 📤") ∧
    (∀ r : Report,
      anyKeyword (pyLower u) ["parameter", "extract", "data"] = false →
      anyKeyword (pyLower u) ["nodal", "pressure", "flow"] = false →
      anyKeyword (pyLower u) ["summary", "overview"] = false →
      anyKeyword (pyLower u) ["increase", "optimize", "improve"] = false →
      anyKeyword (pyLower u) ["limit", "bottleneck", "problem"] = false →
      generate_response u (some r) =
        "I understand you\x27re asking: *\"" ++ u ++
          "\"*\n\nI can help you with:\n- Show extracted parameters\n- Explain nodal analysis results\n- Provide optimization suggestions\n- Identify production limitations\n- Export the full report\n\nTry asking: **\"What are the nodal results?\"** or **\"How can we optimize production?\"** 💡") := by
  constructor
  · intro h1 h2 h3
    simp only [generate_response, h1, h2, h3, Bool.false_eq_true, if_false,
      needsUploadText, String.append_assoc]
    rfl
  · intro r h1 h2 h3 h4 h5
    simp only [generate_response, h1, h2, h3, h4, h5, Bool.false_eq_true, if_false,
      fallbackMenuText, String.append_assoc]
    rfl

/-- Witness for `fallback_templates_amended` at "aaa". -/
theorem fallback_templates_amended_witness :
    generate_response "aaa" Option.none =
      "I understand you\x27re asking: *\"aaa\"*\n\nPlease upload a PDF document first so I can help you analyze it! Use the sidebar to upload. 📤" ∧
    generate_response "aaa" (some ⟨[], NodalStatus.failure "x", ""⟩) =
      "I understand you\x27re asking: *\"aaa\"*\n\nI can help you with:\n- Show extracted parameters\n- Explain nodal analysis results\n- Provide optimization suggestions\n- Identify production limitations\n- Export the full report\n\nTry asking: **\"What are the nodal results?\"** or **\"How can we optimize production?\"** 💡" :=
  ⟨(fallback_templates_amended "aaa").1 (by decide) (by decide) (by decide),
   (fallback_templates_amended "aaa").2 ⟨[], NodalStatus.failure "x", ""⟩
     (by decide) (by decide) (by decide) (by decide) (by decide)⟩

/-- Counterexample to C7 as stated: two utterances that both classify
to NeedsUpload (and both to FallbackMenu with a report loaded) produce
different messages, because the response quotes the utterance. -/
theorem fallback_not_static :
    classify "aaa" false = Intent.NeedsUpload ∧
    classify "bbb" false = Intent.NeedsUpload ∧
    generate_response "aaa" Option.none ≠ generate_response "bbb" Option.none ∧
    classify "aaa" true = Intent.FallbackMenu ∧
    classify "bbb" true = Intent.FallbackMenu ∧
    generate_response "aaa" (some ⟨[], NodalStatus.failure "x", ""⟩) ≠
      generate_response "bbb" (some ⟨[], NodalStatus.failure "x", ""⟩) := by decide

set_option maxRecDepth 8000 in
/-- C3: the optimization advice bands on `current_utilization_pct` with
lower-bound-inclusive bands. Strictly below 50 the message is the
"high potential" one and displays `max_flow_rate - flow_rate` rounded to
one decimal as potential gain; in `[50, 75)` it is the "moderate
potential" one with no gain line; at or above 75 (values above 100
included) it is the "operating efficiently" one. -/
theorem optimization_banding (results : NodalResults) :
    (results.productivity.current_utilization_pct < 50 →
      generate_optimization_advice results =
        "### 💡 Production Optimization Recommendations\n\n**Current Status:** Operating at "
        ++ showNum results.productivity.current_utilization_pct
        ++ "% of maximum potential\n\n"
        ++ ("🚀 **High optimization potential!**\n\n**Recommendations:**\n1. **Increase ESP frequency** - Could boost production significantly\n2. **Reduce wellhead backpressure** - Check surface facilities\n3. **Review choke settings** - May be restricting flow\n4. **Potential gain:** Up to "
            ++ fmt1f (results.productivity.max_flow_rate_m3_h
                      - results.operating_point.flow_rate_m3_h)
            ++ " m³/h\n")) ∧
    (50 ≤ results.productivity.current_utilization_pct →
     results.productivity.current_utilization_pct < 75 →
      generate_optimization_advice results =
        "### 💡 Production Optimization Recommendations\n\n**Current Status:** Operating at "
        ++ showNum results.productivity.current_utilization_pct
        ++ "% of maximum potential\n\n"
        ++ "📈 **Moderate optimization potential**\n\n**Recommendations:**\n1. **Fine-tune ESP settings** - Gradual frequency increase\n2. **Monitor reservoir pressure** - Ensure adequate drive\n3. **Optimize artificial lift** - Balance power vs production\n") ∧
    (75 ≤ results.productivity.current_utilization_pct →
      generate_optimization_advice results =
        "### 💡 Production Optimization Recommendations\n\n**Current Status:** Operating at "
        ++ showNum results.productivity.current_utilization_pct
        ++ "% of maximum potential\n\n"
        ++ "✅ **Well is operating efficiently!**\n\nCurrent utilization is good. Focus on:\n1. **Maintain current settings** - Don\x27t over-produce\n2. **Monitor for decline** - Track performance over time\n3. **Prevent equipment damage** - Operating near capacity\n") := by
  refine ⟨?_, ?_, ?_⟩
  · intro h
    simp only [generate_optimization_advice]
    rw [if_pos h]
    rfl
  · intro h1 h2
    simp only [generate_optimization_advice]
    rw [if_neg (not_lt.2 h1), if_pos h2]
    rfl
  · intro h
    have h50 : ¬ results.productivity.current_utilization_pct < 50 :=
      not_lt.2 (le_trans (by norm_num) h)
    have h75 : ¬ results.productivity.current_utilization_pct < 75 := not_lt.2 h
    simp only [generate_optimization_advice]
    rw [if_neg h50, if_neg h75]
    rfl

set_option maxRecDepth 8000 in
/-- Witness for `optimization_banding`: utilization 40 is high potential
with gain `100 − 60`; exactly 50 is moderate; exactly 75 is efficient;
120 (above 100) is handled and efficient. -/
theorem optimization_banding_witness :
    (generate_optimization_advice
        ⟨⟨60, 10, 150, 200⟩, ⟨100, 20, 120⟩, ⟨3000, "Turbulent", 1/50, 2⟩, ⟨2, 100, 40⟩⟩ =
      "### 💡 Production Optimization Recommendations\n\n**Current Status:** Operating at "
      ++ showNum 40 ++ "% of maximum potential\n\n"
      ++ ("🚀 **High optimization potential!**\n\n**Recommendations:**\n1. **Increase ESP frequency** - Could boost production significantly\n2. **Reduce wellhead backpressure** - Check surface facilities\n3. **Review choke settings** - May be restricting flow\n4. **Potential gain:** Up to "
          ++ fmt1f (100 - 60) ++ " m³/h\n")) ∧
    (generate_optimization_advice
        ⟨⟨60, 10, 150, 200⟩, ⟨100, 20, 120⟩, ⟨3000, "Turbulent", 1/50, 2⟩, ⟨2, 100, 50⟩⟩ =
      "### 💡 Production Optimization Recommendations\n\n**Current Status:** Operating at "
      ++ showNum 50 ++ "% of maximum potential\n\n"
      ++ "📈 **Moderate optimization potential**\n\n**Recommendations:**\n1. **Fine-tune ESP settings** - Gradual frequency increase\n2. **Monitor reservoir pressure** - Ensure adequate drive\n3. **Optimize artificial lift** - Balance power vs production\n") ∧
    (generate_optimization_advice
        ⟨⟨60, 10, 150, 200⟩, ⟨100, 20, 120⟩, ⟨3000, "Turbulent", 1/50, 2⟩, ⟨2, 100, 75⟩⟩ =
      "### 💡 Production Optimization Recommendations\n\n**Current Status:** Operating at "
      ++ showNum 75 ++ "% of maximum potential\n\n"
      ++ "✅ **Well is operating efficiently!**\n\nCurrent utilization is good. Focus on:\n1. **Maintain current settings** - Don\x27t over-produce\n2. **Monitor for decline** - Track performance over time\n3. **Prevent equipment damage** - Operating near capacity\n") ∧
    (generate_optimization_advice
        ⟨⟨60, 10, 150, 200⟩, ⟨100, 20, 120⟩, ⟨3000, "Turbulent", 1/50, 2⟩, ⟨2, 100, 120⟩⟩ =
      "### 💡 Production Optimization Recommendations\n\n**Current Status:** Operating at "
      ++ showNum 120 ++ "% of maximum potential\n\n"
      ++ "✅ **Well is operating efficiently!**\n\nCurrent utilization is good. Focus on:\n1. **Maintain current settings** - Don\x27t over-produce\n2. **Monitor for decline** - Track performance over time\n3. **Prevent equipment damage** - Operating near capacity\n") :=
  ⟨(optimization_banding _).1 (by norm_num),
   (optimization_banding _).2.1 (by norm_num) (by norm_num),
   (optimization_banding _).2.2 (by norm_num),
   (optimization_banding _).2.2 (by norm_num)⟩

/-! ### Round-trip lemmas for the interchange format -/

theorem pvalue_roundtrip (v : PValue) : pvalueFromJson (pvalueToJson v) = some v := by
  cases v <;> rfl

theorem params_roundtrip (l : List (String × PValue)) :
    paramsFromJson (paramsToJson l) = some l := by
  induction l with
  | nil => rfl
  | cons kv rest ih =>
    have ih2 : paramsFromJson (List.map (fun kv => (kv.1, pvalueToJson kv.2)) rest) = some rest := ih
    simp [paramsToJson, paramsFromJson, pvalue_roundtrip, ih2]

theorem results_roundtrip (r : NodalResults) : resultsFromJson (resultsToJson r) = some r := by
  obtain ⟨⟨a, b, c, d⟩, ⟨e, f, g⟩, ⟨h, regime, i, j⟩, ⟨k, l, m⟩⟩ := r
  rfl

theorem nodal_roundtrip (n : NodalStatus) : nodalFromJson (nodalToJson n) = some n := by
  cases n with
  | success r => simp [nodalToJson, nodalFromJson, results_roundtrip r]
  | failure m => rfl

/-- C9: serializing a well-formed Report to the interchange format and
parsing it back yields a Report equal to the original in all fields
(field names and nesting preserved by `reportToJson`). -/
theorem report_roundtrip (r : Report) : reportFromJson (reportToJson r) = some r := by
  obtain ⟨params, nodal, s⟩ := r
  simp [reportToJson, reportFromJson, params_roundtrip, nodal_roundtrip]

end GeoHackathon
